import Mathlib

/-!
Verification of the esp-idf-lcd character-LCD driver (src/include/lcd.h,
src/src/lcd.c) against its natural-language specification.

The C code is shallowly embedded: the driver structure becomes a Lean
structure, the caller-supplied bus-I/O and delay collaborators become an
environment function from the call index to the collaborator's return
value, and every external call is recorded in a trace so that theorems can
speak about the exact sequence of (rw, rs, en, data) tuples and delay
amounts the collaborators observe.  The unbounded busy-poll loop is
embedded with explicit fuel; running out of fuel is reported by a
distinguished outcome that never occurs in the theorems below (each
theorem supplies enough fuel for the run it describes).
-/

namespace Lcd

/-- POSIX EIO error number, as defined by the `#define EIO 5` fallback in
lcd.h. -/
def eioErr : Int := 5

/-- `dimensions` member of `lcdDriver_t`. -/
structure Dimensions where
  width : Nat
  height : Nat
deriving DecidableEq

/-- `cursor` member of `lcdDriver_t` (a pair of `int8_t` in the source,
modelled as mathematical integers; all reachable values are small). -/
structure Cursor where
  x : Int
  y : Int
deriving DecidableEq

/-- `busTiming` member of `lcdDriver_t`: six unsigned microsecond
durations. -/
structure BusTiming where
  addressSetup : Nat
  enableHold : Nat
  dataHold : Nat
  busyInterval : Nat
  busyHoldShort : Nat
  busyHoldLong : Nat
deriving DecidableEq

/-- The LCD driver structure `lcdDriver_t`.  The function-pointer members
are replaced by the explicit environment passed to every operation, and
`userData` / padding are dropped since no behavior depends on them. -/
structure Driver where
  error : Int
  dimensions : Dimensions
  fourBits : Bool
  writeOnly : Bool
  largeFont : Bool
  busTiming : BusTiming
  cursor : Cursor
  direction : Bool
deriving DecidableEq

/-- Default `LCD_TIMING_*` values loaded by `lcdLoadDefaultTiming`. -/
def defaultTiming : BusTiming :=
  { addressSetup := 10, enableHold := 10, dataHold := 10
    busyInterval := 50, busyHoldShort := 500, busyHoldLong := 50000 }

/-- `LCD_CMD_CLEAR()` -/
def LCD_CMD_CLEAR : Nat := 0x01

/-- `LCD_CMD_HOME()` -/
def LCD_CMD_HOME : Nat := 0x02

/-- `LCD_CMD_ENTRY(dir,s)` -/
def LCD_CMD_ENTRY (dir s : Bool) : Nat :=
  0x04 ||| ((if dir then 1 else 0) <<< 1) ||| (if s then 1 else 0)

/-- `LCD_CMD_DISPLAY(f,c,b)` -/
def LCD_CMD_DISPLAY (f c b : Bool) : Nat :=
  0x08 ||| ((if f then 1 else 0) <<< 2) ||| ((if c then 1 else 0) <<< 1) |||
    (if b then 1 else 0)

/-- `LCD_CMD_FUNCTION(b,n,f)` -/
def LCD_CMD_FUNCTION (b n f : Bool) : Nat :=
  0x20 ||| ((if b then 1 else 0) <<< 4) ||| ((if n then 1 else 0) <<< 3) |||
    ((if f then 1 else 0) <<< 2)

/-- `LCD_CMD_CADDR(addr)` -/
def LCD_CMD_CADDR (addr : Nat) : Nat := 0x40 ||| (addr &&& 0x3F)

/-- `LCD_CMD_DADDR(addr)` -/
def LCD_CMD_DADDR (addr : Nat) : Nat := 0x80 ||| (addr &&& 0x7F)

/-- `LCD_DECODE_CURSOR(driver)`: map the logical cursor to a DDRAM
address.  `%` on C `int` truncates toward zero, hence `Int.tmod`; the
boolean `cursor.y >= 2` converts to 0 or 1. -/
def LCD_DECODE_CURSOR (drv : Driver) : Int :=
  drv.cursor.x +
    (64 * (Int.tmod drv.cursor.y 2) +
      (drv.dimensions.width : Int) * (if 2 ≤ drv.cursor.y then 1 else 0))

/-- `lcdUpdateCursor(driver)`: advance (direction true) or retreat
(direction false) the cursor with unconditional wraparound at the
configured dimensions. -/
def lcdUpdateCursor (drv : Driver) : Driver :=
  if drv.direction then
    let x := drv.cursor.x + 1
    if (drv.dimensions.width : Int) ≤ x then
      let y := drv.cursor.y + 1
      if (drv.dimensions.height : Int) ≤ y then
        { drv with cursor := ⟨0, 0⟩ }
      else
        { drv with cursor := ⟨0, y⟩ }
    else
      { drv with cursor := ⟨x, drv.cursor.y⟩ }
  else
    let x := drv.cursor.x - 1
    if x < 0 then
      let y := drv.cursor.y - 1
      if y < 0 then
        { drv with cursor :=
            ⟨(drv.dimensions.width : Int) - 1, (drv.dimensions.height : Int) - 1⟩ }
      else
        { drv with cursor := ⟨(drv.dimensions.width : Int) - 1, y⟩ }
    else
      { drv with cursor := ⟨x, drv.cursor.y⟩ }

/-- Validity invariant on the cursor: `0 ≤ x < width` and
`0 ≤ y < height`. -/
def CursorValid (drv : Driver) : Prop :=
  0 ≤ drv.cursor.x ∧ drv.cursor.x < (drv.dimensions.width : Int) ∧
    0 ≤ drv.cursor.y ∧ drv.cursor.y < (drv.dimensions.height : Int)

instance (drv : Driver) : Decidable (CursorValid drv) := by
  unfold CursorValid; infer_instance

/-! ## Bus protocol embedding

Every call to the caller-supplied bus-I/O or delay collaborator is an
external call.  The environment maps the index of the external call (0 for
the first call an operation makes, counting bus and delay calls together)
to the collaborator's return value: for a bus call, negative means fault,
a nonnegative value is the acknowledgement or the sampled byte; for a
delay call, zero means success and anything else a fault. -/

/-- Environment: return value of the k-th external collaborator call. -/
def Env : Type := Nat → Int

/-- One recorded collaborator call: either a bus transaction with its
(rw, rs, en, data) tuple or a delay with its microsecond amount. -/
inductive Event where
  | bus (rw rs en : Bool) (data : Nat)
  | delay (amount : Nat)
deriving DecidableEq

/-- Whether the event is a bus transaction with the read flag set. -/
def Event.isRead : Event → Bool
  | .bus rw _ _ _ => rw
  | .delay _ => false

/-- External-call state: index of the next call and the trace of calls
made so far. -/
structure BusState where
  idx : Nat
  trace : List Event
deriving DecidableEq

/-- `lcdBusIO(driver, rw, rs, en, data)`: one bus-collaborator call. -/
def lcdBusIo (env : Env) (σ : BusState) (rw rs en : Bool) (data : Nat) :
    Int × BusState :=
  (env σ.idx, ⟨σ.idx + 1, σ.trace ++ [Event.bus rw rs en data]⟩)

/-- `lcdDelay(driver, delay)`: one delay-collaborator call. -/
def lcdDelayCall (env : Env) (σ : BusState) (amount : Nat) :
    Int × BusState :=
  (env σ.idx, ⟨σ.idx + 1, σ.trace ++ [Event.delay amount]⟩)

/-- Possible outcomes of a driver operation: the C return value, fuel
exhaustion of the embedded busy-poll loop (a modelling artifact only), or
a failed `assert`. -/
inductive LcdOut where
  | ret (r : Int)
  | fuelOut
  | assertFail
deriving DecidableEq

/-- The six-call write sequence that both `lcdCommand` and `lcdWrite`
repeat for each (full or shifted) byte: drive lines, wait `t1`, raise
enable, wait `t2`, drop enable, wait `t3`.  Returns whether the
short-circuited condition of the source's `if` was taken (some call
failed). -/
def busWritePhase (env : Env) (σ : BusState) (rs : Bool) (data : Nat)
    (t1 t2 t3 : Nat) : Bool × BusState :=
  let c1 := lcdBusIo env σ false rs false data
  if c1.1 < 0 then (true, c1.2) else
  let c2 := lcdDelayCall env c1.2 t1
  if c2.1 ≠ 0 then (true, c2.2) else
  let c3 := lcdBusIo env c2.2 false rs true data
  if c3.1 < 0 then (true, c3.2) else
  let c4 := lcdDelayCall env c3.2 t2
  if c4.1 ≠ 0 then (true, c4.2) else
  let c5 := lcdBusIo env c4.2 false rs false data
  if c5.1 < 0 then (true, c5.2) else
  let c6 := lcdDelayCall env c5.2 t3
  (decide (c6.1 ≠ 0), c6.2)

/-- The common abort of every multi-step bus sequence: return -1 with
the EIO code latched into the driver (`driver->error = EIO; return -1`). -/
def eioAbort (drv : Driver) (σ : BusState) : LcdOut × Driver × BusState :=
  (.ret (-1), { drv with error := eioErr }, σ)

/-- The `do { ... } while (value & (1 << 7))` busy-poll loop shared by
`lcdCommand` and `lcdWrite` (lcd.c lines 89-110), including the final
`return lcdBusIO(driver, 0, 0, 0, 0)` after the busy flag clears.  The
loop is embedded with fuel; each iteration consumes one unit. -/
def busyLoop (env : Env) (drv : Driver) :
    Nat → BusState → LcdOut × Driver × BusState
  | 0, σ => (.fuelOut, drv, σ)
  | fuel + 1, σ =>
    let c1 := lcdDelayCall env σ drv.busTiming.busyInterval
    if c1.1 ≠ 0 then eioAbort drv c1.2 else
    let c2 := lcdBusIo env c1.2 true false true 0
    if c2.1 < 0 then eioAbort drv c2.2 else
    let c3 := lcdDelayCall env c2.2 drv.busTiming.enableHold
    if c3.1 ≠ 0 then eioAbort drv c3.2 else
    let c4 := lcdBusIo env c3.2 true false true 0
    if c4.1 < 0 then eioAbort drv c4.2 else
    let c5 := lcdBusIo env c4.2 true false false 0
    if c5.1 < 0 then eioAbort drv c5.2 else
    if drv.fourBits then
      let c6 := lcdDelayCall env c5.2 drv.busTiming.dataHold
      if c6.1 ≠ 0 then eioAbort drv c6.2 else
      let c7 := lcdBusIo env c6.2 true false true 0
      if c7.1 < 0 then eioAbort drv c7.2 else
      let c8 := lcdDelayCall env c7.2 drv.busTiming.enableHold
      if c8.1 ≠ 0 then eioAbort drv c8.2 else
      let c9 := lcdBusIo env c8.2 true false false 0
      if c9.1 < 0 then eioAbort drv c9.2 else
      if c4.1.toNat &&& 128 ≠ 0 then busyLoop env drv fuel c9.2 else
      let c10 := lcdBusIo env c9.2 false false false 0
      (.ret c10.1, drv, c10.2)
    else
      if c4.1.toNat &&& 128 ≠ 0 then busyLoop env drv fuel c5.2 else
      let c6 := lcdBusIo env c5.2 false false false 0
      (.ret c6.1, drv, c6.2)

/-- Common body of `lcdCommand` (rs = false) and `lcdWrite` (rs = true):
write phase for the byte, shifted-nibble write phase in 4-bit mode, then
either the write-only short hold or busy polling.  The source duplicates
this body verbatim in the two functions. -/
def lcdSendByte (env : Env) (fuel : Nat) (drv : Driver) (σ : BusState)
    (rs : Bool) (byte : Nat) : LcdOut × Driver × BusState :=
  let p1 := busWritePhase env σ rs byte drv.busTiming.addressSetup
    drv.busTiming.enableHold drv.busTiming.dataHold
  if p1.1 then eioAbort drv p1.2 else
  let p2 :=
    if drv.fourBits then
      busWritePhase env p1.2 rs ((byte <<< 4) % 256) drv.busTiming.addressSetup
        drv.busTiming.enableHold drv.busTiming.dataHold
    else (false, p1.2)
  if p2.1 then eioAbort drv p2.2 else
  if drv.writeOnly then
    let c := lcdDelayCall env p2.2 drv.busTiming.busyHoldShort
    (.ret c.1, drv, c.2)
  else
    let c1 := lcdBusIo env p2.2 true false false 0
    if c1.1 < 0 then eioAbort drv c1.2 else
    let c2 := lcdDelayCall env c1.2 drv.busTiming.addressSetup
    if c2.1 ≠ 0 then eioAbort drv c2.2 else
    busyLoop env drv fuel c2.2

/-- `lcdCommand(driver, command)`. -/
def lcdCommand (env : Env) (fuel : Nat) (drv : Driver) (σ : BusState)
    (command : Nat) : LcdOut × Driver × BusState :=
  lcdSendByte env fuel drv σ false command

/-- `lcdWrite(driver, data)`. -/
def lcdWrite (env : Env) (fuel : Nat) (drv : Driver) (σ : BusState)
    (data : Nat) : LcdOut × Driver × BusState :=
  lcdSendByte env fuel drv σ true data

/-- `lcdClear(driver)`. -/
def lcdClear (env : Env) (fuel : Nat) (drv : Driver) (σ : BusState) :
    LcdOut × Driver × BusState :=
  match lcdCommand env fuel drv σ LCD_CMD_CLEAR with
  | (.ret r, drv, σ) =>
    if r ≠ 0 then (.ret (-1), drv, σ) else
    let c := lcdDelayCall env σ drv.busTiming.busyHoldShort
    if c.1 ≠ 0 then (.ret (-1), drv, c.2) else
    (.ret 0, { drv with cursor := ⟨0, 0⟩ }, c.2)
  | out => out

/-- `lcdHome(driver)`. -/
def lcdHome (env : Env) (fuel : Nat) (drv : Driver) (σ : BusState) :
    LcdOut × Driver × BusState :=
  match lcdCommand env fuel drv σ LCD_CMD_HOME with
  | (.ret r, drv, σ) =>
    if r ≠ 0 then (.ret (-1), drv, σ) else
    let c := lcdDelayCall env σ drv.busTiming.busyHoldLong
    if c.1 ≠ 0 then (.ret (-1), drv, c.2) else
    (.ret 0, { drv with cursor := ⟨0, 0⟩ }, c.2)
  | out => out

/-- `lcdSetCursor(driver, column, row)`.  The two range `assert`s are
modelled as a failing-assert outcome; on the success path the cursor is
stored, the address decoded (converted to `uint8_t` as in the source's
local variable), and the set-DDRAM-address command issued. -/
def lcdSetCursor (env : Env) (fuel : Nat) (drv : Driver) (σ : BusState)
    (column row : Nat) : LcdOut × Driver × BusState :=
  if ¬ column < drv.dimensions.width then (.assertFail, drv, σ) else
  if ¬ row < drv.dimensions.height then (.assertFail, drv, σ) else
  let drv := { drv with cursor := ⟨(column : Int), (row : Int)⟩ }
  let address := ((LCD_DECODE_CURSOR drv) % 256).toNat
  lcdCommand env fuel drv σ (LCD_CMD_DADDR address)

/-- `lcdInit4Bit(driver)` (lcd.c lines 194-240): the three 8-bit
function-set pulses, the 4-bit request pulse with extended settle delay,
and the final full 4-bit-mode function-set command. -/
def lcdInit4Bit (env : Env) (fuel : Nat) (drv : Driver) (σ : BusState) :
    LcdOut × Driver × BusState :=
  let cmd := LCD_CMD_FUNCTION true false false
  let p1 := busWritePhase env σ false cmd drv.busTiming.addressSetup
    drv.busTiming.enableHold 5000
  if p1.1 then eioAbort drv p1.2 else
  let p2 := busWritePhase env p1.2 false cmd drv.busTiming.addressSetup
    drv.busTiming.enableHold 100
  if p2.1 then eioAbort drv p2.2 else
  let c1 := lcdBusIo env p2.2 false false true cmd
  if c1.1 < 0 then eioAbort drv c1.2 else
  let c2 := lcdDelayCall env c1.2 drv.busTiming.enableHold
  if c2.1 ≠ 0 then eioAbort drv c2.2 else
  let c3 := lcdBusIo env c2.2 false false false cmd
  if c3.1 < 0 then eioAbort drv c3.2 else
  let c4 := lcdDelayCall env c3.2 drv.busTiming.dataHold
  if c4.1 ≠ 0 then eioAbort drv c4.2 else
  let cmd4 := LCD_CMD_FUNCTION false false false
  let p3 := busWritePhase env c4.2 false cmd4 drv.busTiming.addressSetup
    drv.busTiming.enableHold (drv.busTiming.dataHold + 100)
  if p3.1 then eioAbort drv p3.2 else
  lcdCommand env fuel drv p3.2 cmd4

/-- `lcdInit(driver)` (lcd.c lines 242-265).  The cursor is zeroed first;
in 4-bit mode the reset handshake, the configured function-set command and
a short hold run, then `lcdClear`; in 8-bit mode the source hits
`assert(false)`. -/
def lcdInit (env : Env) (fuel : Nat) (drv : Driver) (σ : BusState) :
    LcdOut × Driver × BusState :=
  let drv := { drv with cursor := ⟨0, 0⟩ }
  if drv.fourBits then
    match lcdInit4Bit env fuel drv σ with
    | (.ret r, drv, σ) =>
      if r ≠ 0 then (.ret (-1), drv, σ) else
      match lcdCommand env fuel drv σ
          (LCD_CMD_FUNCTION false (decide (1 < drv.dimensions.height))
            drv.largeFont) with
      | (.ret r, drv, σ) =>
        if r ≠ 0 then (.ret (-1), drv, σ) else
        let c := lcdDelayCall env σ drv.busTiming.busyHoldShort
        if c.1 ≠ 0 then (.ret (-1), drv, c.2) else
        lcdClear env fuel drv c.2
      | out => out
    | out => out
  else
    (.assertFail, drv, σ)

/-! ## Concrete environments and drivers used in the theorems -/

/-- Environment in which every collaborator call succeeds (bus reads
sample 0, i.e. the busy flag is never set). -/
def okEnv : Env := fun _ => 0

/-- Environment in which exactly the call with index `k` fails. -/
def failAt (k : Nat) : Env := fun i => if i = k then -1 else 0

/-- Start state: no calls made yet. -/
def σ0 : BusState := ⟨0, []⟩

/-- A 16x2 write-only 4-bit-mode driver with default timings. -/
def drv16x2 : Driver :=
  { error := 0, dimensions := ⟨16, 2⟩, fourBits := true, writeOnly := true
    largeFont := false, busTiming := defaultTiming, cursor := ⟨0, 0⟩
    direction := true }

/-- A 20x4 write-only 4-bit-mode driver with default timings. -/
def drv20x4 : Driver :=
  { drv16x2 with dimensions := ⟨20, 4⟩ }

/-- A 16x2 write-only 8-bit-bus driver with default timings (used where
the claims need the plain six-call write phase). -/
def drvW8 : Driver :=
  { drv16x2 with fourBits := false }

/-- A 16x2 write-only 4-bit-mode driver with the given timings, width,
height and font flag: the configuration family used by the
initialization-sequence theorems. -/
def woDrv4 (t : BusTiming) (w h : Nat) (lf : Bool) : Driver :=
  { error := 0, dimensions := ⟨w, h⟩, fourBits := true, writeOnly := true
    largeFont := lf, busTiming := t, cursor := ⟨0, 0⟩, direction := true }

/-- A write-only 8-bit-bus driver with the given timings (plain six-call
write phase, no nibble split). -/
def woDrv8 (t : BusTiming) : Driver :=
  { woDrv4 t 16 2 false with fourBits := false }

/-- A read-capable 8-bit-bus driver with the given timings (used for the
busy-poll theorems). -/
def readDrv8 (t : BusTiming) : Driver :=
  { woDrv4 t 16 2 false with fourBits := false, writeOnly := false }

/-- A 16x2 read-capable 8-bit-bus driver with default timings. -/
def drvR8 : Driver := readDrv8 defaultTiming

/-- A driver whose only relevant fields are the dimensions and the
cursor, for theorems about the pure address decoder. -/
def probeDriver (w h : Nat) (x y : Int) : Driver :=
  { error := 0, dimensions := ⟨w, h⟩, fourBits := true, writeOnly := true
    largeFont := false, busTiming := defaultTiming, cursor := ⟨x, y⟩
    direction := true }

/-- Environment for the busy-poll theorems: every delay succeeds, every
bus write is acknowledged, and of the sampled busy-flag reads (the call
indices of the form `8 + 5*i + 3` in the 8-bit-bus polling pattern) the
first `n` report busy (bit 7 set) and the rest report idle. -/
def envBusy (n : Nat) : Env := fun idx =>
  if 8 ≤ idx ∧ (idx - 8) % 5 = 3 ∧ (idx - 8) / 5 < n then 128 else 0

/-! ## Expected trace shapes -/

/-- The six collaborator calls of one write cycle, as events. -/
def writeCycleEvents (rs : Bool) (data t1 t2 t3 : Nat) : List Event :=
  [.bus false rs false data, .delay t1, .bus false rs true data,
   .delay t2, .bus false rs false data, .delay t3]

/-- The events of a successful `lcdCommand` in write-only 4-bit mode:
two nibble write cycles then the short busy hold. -/
def commandEventsWO (t : BusTiming) (byte : Nat) : List Event :=
  writeCycleEvents false byte t.addressSetup t.enableHold t.dataHold ++
    writeCycleEvents false ((byte <<< 4) % 256) t.addressSetup t.enableHold
      t.dataHold ++
    [.delay t.busyHoldShort]

/-- The events of a successful `lcdInit4Bit` run in write-only mode. -/
def init4BitEventsWO (t : BusTiming) : List Event :=
  writeCycleEvents false 0x30 t.addressSetup t.enableHold 5000 ++
    writeCycleEvents false 0x30 t.addressSetup t.enableHold 100 ++
    [.bus false false true 0x30, .delay t.enableHold,
     .bus false false false 0x30, .delay t.dataHold] ++
    writeCycleEvents false 0x20 t.addressSetup t.enableHold
      (t.dataHold + 100) ++
    commandEventsWO t 0x20

/-- The events of a successful `lcdInit` run in write-only 4-bit mode,
with `n` the lines bit (height > 1) and `f` the font bit. -/
def initEventsWO (t : BusTiming) (n f : Bool) : List Event :=
  init4BitEventsWO t ++
    commandEventsWO t (LCD_CMD_FUNCTION false n f) ++
    [.delay t.busyHoldShort] ++
    commandEventsWO t LCD_CMD_CLEAR ++
    [.delay t.busyHoldShort]

/-- Modelled from the claim's words (claim C2 / spec section 4.4), for a
write-only 4-bit configuration: three 8-bit function-set pulses with
settle delays 5 ms, 100 us and (per the claim) the configured enable-hold
after the third; one 4-bit function-set nibble pulse with the extended
settle delay; then directly the full function-set command with the
configured line-count and font bits, and the display-clear.  This is the
comparison object for the refutation of claim C2: it contains no full
`FUNCTION(0,0,0)` two-nibble command between the nibble pulse and the
configured function-set command, while the source sends one. -/
def c2ClaimedEventsWO (t : BusTiming) (n f : Bool) : List Event :=
  writeCycleEvents false 0x30 t.addressSetup t.enableHold 5000 ++
    writeCycleEvents false 0x30 t.addressSetup t.enableHold 100 ++
    [.bus false false true 0x30, .delay t.enableHold,
     .bus false false false 0x30, .delay t.enableHold] ++
    writeCycleEvents false 0x20 t.addressSetup t.enableHold
      (t.dataHold + 100) ++
    commandEventsWO t (LCD_CMD_FUNCTION false n f) ++
    [.delay t.busyHoldShort] ++
    commandEventsWO t LCD_CMD_CLEAR ++
    [.delay t.busyHoldShort]

/-- One polling read-cycle of the 8-bit-bus busy-poll loop, as events. -/
def pollCycleEvents (t : BusTiming) : List Event :=
  [.delay t.busyInterval, .bus true false true 0, .delay t.enableHold,
   .bus true false true 0, .bus true false false 0]

/-- `n` consecutive polling read-cycles. -/
def pollEvents (t : BusTiming) : Nat → List Event
  | 0 => []
  | n + 1 => pollCycleEvents t ++ pollEvents t n

/-- The write phase and read setup preceding the busy-poll loop of
`lcdCommand` on an 8-bit read-capable bus. -/
def commandPrefixEventsR8 (t : BusTiming) (byte : Nat) : List Event :=
  writeCycleEvents false byte t.addressSetup t.enableHold t.dataHold ++
    [.bus true false false 0, .delay t.addressSetup]

/-- The trace `σ'` extends `σ` without any new read transaction: every
event of `σ'` was already in `σ` or is not a bus read. -/
def NoNewReads (σ σ' : BusState) : Prop :=
  ∀ e ∈ σ'.trace, e ∈ σ.trace ∨ Event.isRead e = false

/-- The driver returned by a bus sequence is either the input driver or
the input driver with the EIO code latched. -/
def DriverPreserved (drv : Driver) (z : LcdOut × Driver × BusState) : Prop :=
  z.2.1 = drv ∨ z.2.1 = { drv with error := eioErr }

/-- Shape of the driver after `lcdClear`/`lcdHome`: the cursor is either
untouched or zeroed, and the dimensions are untouched. -/
def ClearShape (drv : Driver) (z : LcdOut × Driver × BusState) : Prop :=
  (z.2.1.cursor = drv.cursor ∨ z.2.1.cursor = ⟨0, 0⟩) ∧
    z.2.1.dimensions = drv.dimensions

/-- Shape of the driver after `lcdInit`: the cursor is (0,0) and the
dimensions are untouched. -/
def InitShape (dims : Dimensions) (z : LcdOut × Driver × BusState) : Prop :=
  z.2.1.cursor = ⟨0, 0⟩ ∧ z.2.1.dimensions = dims

/-- `NoNewReads` seen through the result of a write phase. -/
def NoReadsOut2 (σ : BusState) (z : Bool × BusState) : Prop :=
  NoNewReads σ z.2

/-- `NoNewReads` seen through the result of a driver operation. -/
def NoReadsOut3 (σ : BusState) (z : LcdOut × Driver × BusState) : Prop :=
  NoNewReads σ z.2.2

/-! ## Theorems -/

/-- On nonnegative arguments the C truncating remainder agrees with the
mathematical (Euclidean) remainder. -/
lemma tmod_two_of_nonneg (y : Int) (hy : 0 ≤ y) : Int.tmod y 2 = y % 2 := by
  obtain ⟨n, rfl⟩ := Int.eq_ofNat_of_zero_le hy
  rfl

/-- Claim C1: the DDRAM address decoder computes
`x + 64*(y mod 2) + width*(y ≥ 2 ? 1 : 0)` for every valid cursor, and
the two worked examples: a 16x2 display with set-cursor(5,1) issues the
set-DDRAM-address command for address 69, and a 20x4 display with
set-cursor(0,2) issues the one for address 20. -/
theorem c1_address_decoding :
    (∀ (drv : Driver), CursorValid drv →
      LCD_DECODE_CURSOR drv =
        drv.cursor.x + 64 * (drv.cursor.y % 2) +
          (drv.dimensions.width : Int) *
            (if 2 ≤ drv.cursor.y then 1 else 0)) ∧
    (lcdSetCursor okEnv 1 drv16x2 σ0 5 1).2.2.trace.head? =
      some (Event.bus false false false (LCD_CMD_DADDR 69)) ∧
    (lcdSetCursor okEnv 1 drv20x4 σ0 0 2).2.2.trace.head? =
      some (Event.bus false false false (LCD_CMD_DADDR 20)) := by
  refine ⟨fun drv hv => ?_, by decide, by decide⟩
  unfold LCD_DECODE_CURSOR
  rw [tmod_two_of_nonneg _ hv.2.2.1]
  ring

/-- Witness for C1 at a concrete driver state. -/
theorem c1_address_decoding_witness :
    LCD_DECODE_CURSOR drv16x2 =
      drv16x2.cursor.x + 64 * (drv16x2.cursor.y % 2) +
        (drv16x2.dimensions.width : Int) *
          (if 2 ≤ drv16x2.cursor.y then 1 else 0) :=
  c1_address_decoding.1 drv16x2 (by decide)

/-- Refutation of claim C4 as stated: on the supported 20x4 dimensions
the decoder leaves [0, 80) (cursor (19,3) decodes to 103, and already
(0,3) decodes to 84), and on the supported 16x5 dimensions it is not
injective (cursors (0,2) and (0,4) both decode to 16). -/
theorem c4_counterexample :
    (20 * 4 ≤ 80 ∧
      LCD_DECODE_CURSOR (probeDriver 20 4 19 3) = 103 ∧
      ¬ LCD_DECODE_CURSOR (probeDriver 20 4 19 3) < 80) ∧
    (16 * 5 ≤ 80 ∧
      LCD_DECODE_CURSOR (probeDriver 16 5 0 2) =
        LCD_DECODE_CURSOR (probeDriver 16 5 0 4) ∧
      (⟨0, 2⟩ : Cursor) ≠ ⟨0, 4⟩) := by
  decide

/-- Claim C4 as amended: for all dimensions with `width ≥ 1`,
`height ≥ 1`, `width*height ≤ 80` and every valid cursor, the decoder
returns a value in [0, 128) (the 7-bit DDRAM address space), and it is
injective over the valid domain whenever `height ≤ 4`. -/
theorem c4_amended :
    ∀ (w h : Nat) (x y : Int), 1 ≤ w → 1 ≤ h → w * h ≤ 80 →
      0 ≤ x → x < (w : Int) → 0 ≤ y → y < (h : Int) →
      (0 ≤ LCD_DECODE_CURSOR (probeDriver w h x y) ∧
        LCD_DECODE_CURSOR (probeDriver w h x y) < 128) ∧
      (h ≤ 4 → ∀ (x' y' : Int), 0 ≤ x' → x' < (w : Int) →
        0 ≤ y' → y' < (h : Int) →
        LCD_DECODE_CURSOR (probeDriver w h x y) =
          LCD_DECODE_CURSOR (probeDriver w h x' y') →
        x = x' ∧ y = y') := by
  intro w h x y hw hh hwh hx0 hxw hy0 hyh
  have hd2 : h < 2 ∨ w * 2 ≤ 80 := by
    rcases Nat.lt_or_ge h 2 with h2 | h2
    · exact Or.inl h2
    · exact Or.inr (le_trans (Nat.mul_le_mul (le_refl w) h2) hwh)
  have hd3 : h < 3 ∨ w * 3 ≤ 80 := by
    rcases Nat.lt_or_ge h 3 with h3 | h3
    · exact Or.inl h3
    · exact Or.inr (le_trans (Nat.mul_le_mul (le_refl w) h3) hwh)
  have hd4 : h < 4 ∨ w * 4 ≤ 80 := by
    rcases Nat.lt_or_ge h 4 with h4 | h4
    · exact Or.inl h4
    · exact Or.inr (le_trans (Nat.mul_le_mul (le_refl w) h4) hwh)
  have hw80 : w ≤ 80 := by
    have := le_trans (Nat.mul_le_mul (le_refl w) hh) hwh
    omega
  constructor
  · unfold LCD_DECODE_CURSOR probeDriver
    dsimp only
    rw [tmod_two_of_nonneg _ hy0]
    split_ifs <;> omega
  · intro hh4 x' y' hx0' hxw' hy0' hyh' heq
    unfold LCD_DECODE_CURSOR probeDriver at heq
    dsimp only at heq
    rw [tmod_two_of_nonneg _ hy0, tmod_two_of_nonneg _ hy0'] at heq
    split_ifs at heq <;> omega

/-- Witness for C4 (amended) at a concrete input. -/
theorem c4_amended_witness :
    (0 ≤ LCD_DECODE_CURSOR (probeDriver 20 4 19 3) ∧
      LCD_DECODE_CURSOR (probeDriver 20 4 19 3) < 128) ∧
    (4 ≤ 4 → ∀ (x' y' : Int), 0 ≤ x' → x' < (20 : Int) →
      0 ≤ y' → y' < (4 : Int) →
      LCD_DECODE_CURSOR (probeDriver 20 4 19 3) =
        LCD_DECODE_CURSOR (probeDriver 20 4 x' y') →
      (19 : Int) = x' ∧ (3 : Int) = y') :=
  c4_amended 20 4 19 3 (by decide) (by decide) (by decide) (by decide)
    (by decide) (by decide) (by decide)

/-- The cursor produced by `lcdUpdateCursor`, as a pure conditional. -/
lemma updateCursor_cursor (drv : Driver) :
    (lcdUpdateCursor drv).cursor =
      if drv.direction then
        (if (drv.dimensions.width : Int) ≤ drv.cursor.x + 1 then
          (if (drv.dimensions.height : Int) ≤ drv.cursor.y + 1 then ⟨0, 0⟩
           else ⟨0, drv.cursor.y + 1⟩)
         else ⟨drv.cursor.x + 1, drv.cursor.y⟩)
      else
        (if drv.cursor.x - 1 < 0 then
          (if drv.cursor.y - 1 < 0 then
            ⟨(drv.dimensions.width : Int) - 1,
              (drv.dimensions.height : Int) - 1⟩
           else ⟨(drv.dimensions.width : Int) - 1, drv.cursor.y - 1⟩)
         else ⟨drv.cursor.x - 1, drv.cursor.y⟩) := by
  unfold lcdUpdateCursor
  dsimp only
  split_ifs <;> rfl

/-- `lcdUpdateCursor` only touches the cursor fields. -/
lemma updateCursor_dimensions (drv : Driver) :
    (lcdUpdateCursor drv).dimensions = drv.dimensions := by
  unfold lcdUpdateCursor
  dsimp only
  split_ifs <;> rfl

set_option maxHeartbeats 1600000 in
/-- Claim C5: forward advance followed by backward advance restores the
cursor, and the two corner wraps: forward from (width-1, height-1) goes
to (0,0) and backward from (0,0) goes to (width-1, height-1). -/
theorem c5_advance_roundtrip :
    (∀ (drv : Driver), CursorValid drv →
      (lcdUpdateCursor
        { lcdUpdateCursor { drv with direction := true } with
            direction := false }).cursor = drv.cursor) ∧
    (∀ (drv : Driver), 1 ≤ drv.dimensions.width →
      1 ≤ drv.dimensions.height →
      drv.cursor = ⟨(drv.dimensions.width : Int) - 1,
        (drv.dimensions.height : Int) - 1⟩ →
      (lcdUpdateCursor { drv with direction := true }).cursor = ⟨0, 0⟩) ∧
    (∀ (drv : Driver), 1 ≤ drv.dimensions.width →
      1 ≤ drv.dimensions.height →
      drv.cursor = ⟨0, 0⟩ →
      (lcdUpdateCursor { drv with direction := false }).cursor =
        ⟨(drv.dimensions.width : Int) - 1,
          (drv.dimensions.height : Int) - 1⟩) := by
  refine ⟨fun drv hv => ?_, fun drv hw hh hc => ?_, fun drv hw hh hc => ?_⟩
  · obtain ⟨e, ⟨w, h⟩, fb, wo, lf, t, ⟨x, y⟩, d⟩ := drv
    obtain ⟨hx0, hxw, hy0, hyh⟩ := hv
    dsimp only at hx0 hxw hy0 hyh
    rw [updateCursor_cursor, updateCursor_cursor]
    dsimp only
    rw [updateCursor_dimensions]
    dsimp only
    split_ifs <;>
      first
        | rfl
        | (simp_all only [Cursor.mk.injEq] <;> omega)
        | (simp_all <;> omega)
        | omega
  · obtain ⟨e, ⟨w, h⟩, fb, wo, lf, t, ⟨x, y⟩, d⟩ := drv
    dsimp only at hw hh hc ⊢
    simp only [Cursor.mk.injEq] at hc
    obtain ⟨rfl, rfl⟩ := hc
    rw [updateCursor_cursor]
    dsimp only
    split_ifs <;>
      first
        | rfl
        | (simp_all only [Cursor.mk.injEq] <;> omega)
        | (simp_all <;> omega)
        | omega
  · obtain ⟨e, ⟨w, h⟩, fb, wo, lf, t, ⟨x, y⟩, d⟩ := drv
    dsimp only at hw hh hc ⊢
    simp only [Cursor.mk.injEq] at hc
    obtain ⟨rfl, rfl⟩ := hc
    rw [updateCursor_cursor]
    dsimp only
    split_ifs <;>
      first
        | rfl
        | (simp_all only [Cursor.mk.injEq] <;> omega)
        | (simp_all <;> omega)
        | omega

/-- Witness for C5 at a concrete driver state. -/
theorem c5_advance_roundtrip_witness :
    (lcdUpdateCursor
      { lcdUpdateCursor { drv16x2 with direction := true } with
          direction := false }).cursor = drv16x2.cursor :=
  c5_advance_roundtrip.1 drv16x2 (by decide)

/-- Case analysis on an if-then-else under an arbitrary property, used
to walk the short-circuited call chains without expanding them. -/
lemma ite_prop {α : Sort _} (Q : α → Prop) {P : Prop} {inst : Decidable P}
    {a b : α} (ha : Q a) (hb : Q b) : Q (@ite α P inst a b) := by
  rcases inst with h | h
  · rw [if_neg h]; exact hb
  · rw [if_pos h]; exact ha

/-- The busy-poll loop never touches the driver except to latch EIO. -/
lemma busyLoop_driver (env : Env) (drv : Driver) :
    ∀ (fuel : Nat) (σ : BusState),
      DriverPreserved drv (busyLoop env drv fuel σ) := by
  intro fuel
  induction fuel with
  | zero => intro σ; exact Or.inl rfl
  | succ n ih =>
    intro σ
    unfold busyLoop
    dsimp only
    refine ite_prop _ (Or.inr rfl) ?_
    refine ite_prop _ (Or.inr rfl) ?_
    refine ite_prop _ (Or.inr rfl) ?_
    refine ite_prop _ (Or.inr rfl) ?_
    refine ite_prop _ (Or.inr rfl) ?_
    refine ite_prop _ ?_ ?_
    · refine ite_prop _ (Or.inr rfl) ?_
      refine ite_prop _ (Or.inr rfl) ?_
      refine ite_prop _ (Or.inr rfl) ?_
      refine ite_prop _ (Or.inr rfl) ?_
      exact ite_prop _ (ih _) (Or.inl rfl)
    · exact ite_prop _ (ih _) (Or.inl rfl)

/-- `lcdSendByte` never touches the driver except to latch EIO. -/
lemma sendByte_driver (env : Env) (fuel : Nat) (drv : Driver)
    (σ : BusState) (rs : Bool) (b : Nat) :
    DriverPreserved drv (lcdSendByte env fuel drv σ rs b) := by
  unfold lcdSendByte
  dsimp only
  refine ite_prop _ (Or.inr rfl) ?_
  refine ite_prop _ (Or.inr rfl) ?_
  refine ite_prop _ (Or.inl rfl) ?_
  refine ite_prop _ (Or.inr rfl) ?_
  refine ite_prop _ (Or.inr rfl) ?_
  exact busyLoop_driver env drv fuel _

/-- `lcdInit4Bit` never touches the driver except to latch EIO. -/
lemma init4Bit_driver (env : Env) (fuel : Nat) (drv : Driver)
    (σ : BusState) :
    DriverPreserved drv (lcdInit4Bit env fuel drv σ) := by
  unfold lcdInit4Bit
  dsimp only
  refine ite_prop _ (Or.inr rfl) ?_
  refine ite_prop _ (Or.inr rfl) ?_
  refine ite_prop _ (Or.inr rfl) ?_
  refine ite_prop _ (Or.inr rfl) ?_
  refine ite_prop _ (Or.inr rfl) ?_
  refine ite_prop _ (Or.inr rfl) ?_
  refine ite_prop _ (Or.inr rfl) ?_
  exact sendByte_driver env fuel drv _ false _

/-- Component corollaries of `DriverPreserved`. -/
lemma preserved_cursor {drv : Driver} {z : LcdOut × Driver × BusState}
    (h : DriverPreserved drv z) : z.2.1.cursor = drv.cursor := by
  rcases h with h | h <;> rw [h]

lemma preserved_dimensions {drv : Driver} {z : LcdOut × Driver × BusState}
    (h : DriverPreserved drv z) : z.2.1.dimensions = drv.dimensions := by
  rcases h with h | h <;> rw [h]

lemma preserved_busTiming {drv : Driver} {z : LcdOut × Driver × BusState}
    (h : DriverPreserved drv z) : z.2.1.busTiming = drv.busTiming := by
  rcases h with h | h <;> rw [h]

lemma preserved_flags {drv : Driver} {z : LcdOut × Driver × BusState}
    (h : DriverPreserved drv z) :
    z.2.1.fourBits = drv.fourBits ∧ z.2.1.writeOnly = drv.writeOnly ∧
      z.2.1.largeFont = drv.largeFont := by
  rcases h with h | h <;> rw [h] <;> exact ⟨rfl, rfl, rfl⟩

/-- `lcdCommand` never touches the driver except to latch EIO. -/
lemma command_driver (env : Env) (fuel : Nat) (drv : Driver)
    (σ : BusState) (c : Nat) :
    DriverPreserved drv (lcdCommand env fuel drv σ c) :=
  sendByte_driver env fuel drv σ false c

/-- `lcdWrite` never touches the driver except to latch EIO. -/
lemma write_driver (env : Env) (fuel : Nat) (drv : Driver)
    (σ : BusState) (b : Nat) :
    DriverPreserved drv (lcdWrite env fuel drv σ b) :=
  sendByte_driver env fuel drv σ true b

/-- `lcdClear` zeroes the cursor on success and otherwise leaves it. -/
lemma clear_shape (env : Env) (fuel : Nat) (drv : Driver) (σ : BusState) :
    ClearShape drv (lcdClear env fuel drv σ) := by
  unfold lcdClear
  have hp := command_driver env fuel drv σ LCD_CMD_CLEAR
  rcases h : lcdCommand env fuel drv σ LCD_CMD_CLEAR with ⟨out, d1, σ1⟩
  rw [h] at hp
  rcases out with r | _ | _
  · dsimp only
    rcases hp with hp | hp <;> subst hp
    · refine ite_prop _ ⟨Or.inl rfl, rfl⟩ ?_
      exact ite_prop _ ⟨Or.inl rfl, rfl⟩ ⟨Or.inr rfl, rfl⟩
    · refine ite_prop _ ⟨Or.inl rfl, rfl⟩ ?_
      exact ite_prop _ ⟨Or.inl rfl, rfl⟩ ⟨Or.inr rfl, rfl⟩
  · rcases hp with hp | hp <;> subst hp
    · exact ⟨Or.inl rfl, rfl⟩
    · exact ⟨Or.inl rfl, rfl⟩
  · rcases hp with hp | hp <;> subst hp
    · exact ⟨Or.inl rfl, rfl⟩
    · exact ⟨Or.inl rfl, rfl⟩

/-- `lcdHome` zeroes the cursor on success and otherwise leaves it. -/
lemma home_shape (env : Env) (fuel : Nat) (drv : Driver) (σ : BusState) :
    ClearShape drv (lcdHome env fuel drv σ) := by
  unfold lcdHome
  have hp := command_driver env fuel drv σ LCD_CMD_HOME
  rcases h : lcdCommand env fuel drv σ LCD_CMD_HOME with ⟨out, d1, σ1⟩
  rw [h] at hp
  rcases out with r | _ | _
  · dsimp only
    rcases hp with hp | hp <;> subst hp
    · refine ite_prop _ ⟨Or.inl rfl, rfl⟩ ?_
      exact ite_prop _ ⟨Or.inl rfl, rfl⟩ ⟨Or.inr rfl, rfl⟩
    · refine ite_prop _ ⟨Or.inl rfl, rfl⟩ ?_
      exact ite_prop _ ⟨Or.inl rfl, rfl⟩ ⟨Or.inr rfl, rfl⟩
  · rcases hp with hp | hp <;> subst hp
    · exact ⟨Or.inl rfl, rfl⟩
    · exact ⟨Or.inl rfl, rfl⟩
  · rcases hp with hp | hp <;> subst hp
    · exact ⟨Or.inl rfl, rfl⟩
    · exact ⟨Or.inl rfl, rfl⟩

/-- After `lcdInit`, whatever the outcome, the logical cursor is (0,0)
and the dimensions are untouched. -/
lemma init_shape (env : Env) (fuel : Nat) (drv : Driver) (σ : BusState) :
    InitShape drv.dimensions (lcdInit env fuel drv σ) := by
  unfold lcdInit
  dsimp only
  refine ite_prop _ ?_ ⟨rfl, rfl⟩
  have h4 := init4Bit_driver env fuel { drv with cursor := ⟨0, 0⟩ } σ
  rcases h : lcdInit4Bit env fuel { drv with cursor := ⟨0, 0⟩ } σ
    with ⟨out, d1, σ1⟩
  rw [h] at h4
  rcases out with r | _ | _
  · dsimp only
    have hc1 : d1.cursor = ⟨0, 0⟩ := preserved_cursor h4
    have hd1 : d1.dimensions = drv.dimensions := preserved_dimensions h4
    refine ite_prop _ ⟨hc1, hd1⟩ ?_
    have hcmd := command_driver env fuel d1 σ1
      (LCD_CMD_FUNCTION false (decide (1 < d1.dimensions.height)) d1.largeFont)
    rcases h2 : lcdCommand env fuel d1 σ1
        (LCD_CMD_FUNCTION false (decide (1 < d1.dimensions.height))
          d1.largeFont) with ⟨out2, d2, σ2⟩
    rw [h2] at hcmd
    rcases out2 with r2 | _ | _
    · dsimp only
      have hc2 : d2.cursor = ⟨0, 0⟩ := by rw [preserved_cursor hcmd]; exact hc1
      have hd2 : d2.dimensions = drv.dimensions := by
        rw [preserved_dimensions hcmd]; exact hd1
      refine ite_prop _ ⟨hc2, hd2⟩ ?_
      refine ite_prop _ ⟨hc2, hd2⟩ ?_
      have hcl := clear_shape env fuel d2
        (lcdDelayCall env σ2 d2.busTiming.busyHoldShort).2
      rcases hcl with ⟨hclc | hclc, hcld⟩
      · exact ⟨by rw [hclc]; exact hc2, by rw [hcld]; exact hd2⟩
      · exact ⟨hclc, by rw [hcld]; exact hd2⟩
    · dsimp only
      exact ⟨by rw [preserved_cursor hcmd]; exact hc1,
        by rw [preserved_dimensions hcmd]; exact hd1⟩
    · dsimp only
      exact ⟨by rw [preserved_cursor hcmd]; exact hc1,
        by rw [preserved_dimensions hcmd]; exact hd1⟩
  · dsimp only
    have hc := preserved_cursor h4
    have hd := preserved_dimensions h4
    exact ⟨hc, hd⟩
  · dsimp only
    have hc := preserved_cursor h4
    have hd := preserved_dimensions h4
    exact ⟨hc, hd⟩

/-- A preserved driver keeps a valid cursor valid. -/
lemma valid_of_preserved {drv : Driver} {z : LcdOut × Driver × BusState}
    (h : DriverPreserved drv z) (hv : CursorValid drv) :
    CursorValid z.2.1 := by
  rcases h with h | h <;> rw [h] <;> exact hv

/-- A clear/home-shaped driver keeps a valid cursor valid. -/
lemma valid_of_clearShape {drv : Driver} {z : LcdOut × Driver × BusState}
    (h : ClearShape drv z) (hv : CursorValid drv) :
    CursorValid z.2.1 := by
  obtain ⟨hc | hc, hd⟩ := h
  · simp only [CursorValid] at hv ⊢
    rw [hc, hd]
    omega
  · simp only [CursorValid] at hv ⊢
    rw [hc, hd]
    dsimp only
    omega

/-- Claim C8: with valid dimensions and the stated preconditions, every
operation preserves the cursor invariant `0 ≤ x < width`,
`0 ≤ y < height`: cursor advance, set-cursor, initialization,
send-command, send-data, clear and home all leave a valid cursor. -/
theorem c8_cursor_invariant :
    (∀ (drv : Driver), CursorValid drv →
      CursorValid (lcdUpdateCursor drv)) ∧
    (∀ (env : Env) (fuel : Nat) (drv : Driver) (σ : BusState)
      (col row : Nat), col < drv.dimensions.width →
      row < drv.dimensions.height →
      CursorValid (lcdSetCursor env fuel drv σ col row).2.1) ∧
    (∀ (env : Env) (fuel : Nat) (drv : Driver) (σ : BusState),
      1 ≤ drv.dimensions.width → 1 ≤ drv.dimensions.height →
      CursorValid (lcdInit env fuel drv σ).2.1) ∧
    (∀ (env : Env) (fuel : Nat) (drv : Driver) (σ : BusState) (b : Nat),
      CursorValid drv →
      CursorValid (lcdCommand env fuel drv σ b).2.1 ∧
        CursorValid (lcdWrite env fuel drv σ b).2.1) ∧
    (∀ (env : Env) (fuel : Nat) (drv : Driver) (σ : BusState),
      CursorValid drv →
      CursorValid (lcdClear env fuel drv σ).2.1 ∧
        CursorValid (lcdHome env fuel drv σ).2.1) := by
  refine ⟨fun drv hv => ?_, fun env fuel drv σ col row hcol hrow => ?_,
    fun env fuel drv σ hw hh => ?_, fun env fuel drv σ b hv => ?_,
    fun env fuel drv σ hv => ?_⟩
  · obtain ⟨e, ⟨w, h⟩, fb, wo, lf, t, ⟨x, y⟩, d⟩ := drv
    obtain ⟨hx0, hxw, hy0, hyh⟩ := hv
    dsimp only at hx0 hxw hy0 hyh
    simp only [CursorValid]
    rw [updateCursor_cursor, updateCursor_dimensions]
    dsimp only
    split_ifs <;>
      first
        | (simp_all only [Cursor.mk.injEq] <;> omega)
        | (simp_all <;> omega)
        | omega
  · unfold lcdSetCursor
    dsimp only
    rw [if_neg (not_not_intro hcol), if_neg (not_not_intro hrow)]
    have hp := command_driver env fuel
      { drv with cursor := ⟨(col : Int), (row : Int)⟩ } σ
      (LCD_CMD_DADDR ((LCD_DECODE_CURSOR
        { drv with cursor := ⟨(col : Int), (row : Int)⟩ }) % 256).toNat)
    rcases hp with hp | hp <;> rw [hp] <;> simp only [CursorValid] <;>
      omega
  · have hs := init_shape env fuel drv σ
    obtain ⟨hc, hd⟩ := hs
    simp only [CursorValid]
    rw [hc, hd]
    dsimp only
    omega
  · exact ⟨valid_of_preserved (command_driver env fuel drv σ b) hv,
      valid_of_preserved (write_driver env fuel drv σ b) hv⟩
  · exact ⟨valid_of_clearShape (clear_shape env fuel drv σ) hv,
      valid_of_clearShape (home_shape env fuel drv σ) hv⟩

/-- Witness for C8 at concrete inputs. -/
theorem c8_cursor_invariant_witness :
    CursorValid (lcdUpdateCursor drv16x2) ∧
    CursorValid (lcdSetCursor okEnv 1 drv16x2 σ0 5 1).2.1 ∧
    CursorValid (lcdInit okEnv 1 drv16x2 σ0).2.1 :=
  ⟨c8_cursor_invariant.1 drv16x2 (by decide),
    c8_cursor_invariant.2.1 okEnv 1 drv16x2 σ0 5 1 (by decide) (by decide),
    c8_cursor_invariant.2.2.1 okEnv 1 drv16x2 σ0 (by decide) (by decide)⟩

/-- Claim C9: with an 8-bit bus configuration, `lcdInit` hits the
unconditional `assert(false)` before any bus or delay call: the outcome
is the failed assertion, the call trace is unchanged (no 8-bit reset
handshake is attempted), and the function never returns success. -/
theorem c9_eightbit_init_assert :
    ∀ (env : Env) (fuel : Nat) (drv : Driver) (σ : BusState),
      drv.fourBits = false →
      lcdInit env fuel drv σ =
        (.assertFail, { drv with cursor := ⟨0, 0⟩ }, σ) := by
  intro env fuel drv σ h
  unfold lcdInit
  dsimp only
  rw [h]
  simp

/-- Witness for C9 at a concrete 8-bit-bus driver. -/
theorem c9_eightbit_init_assert_witness :
    lcdInit okEnv 1 drvR8 σ0 =
      (.assertFail, { drvR8 with cursor := ⟨0, 0⟩ }, σ0) :=
  c9_eightbit_init_assert okEnv 1 drvR8 σ0 (by decide)

/-- Refutation of claim C3 as stated: inject a failure at the very first
bus-I/O call of `lcdSetCursor(5, 1)` on a 16x2 write-only driver whose
cursor is (0,0).  The operation aborts after that single call and latches
EIO, but the cursor fields have already been updated to (5,1): the source
stores the new cursor before issuing the set-DDRAM-address command, so
"cursor fields are only updated after the corresponding bus operation
succeeds" is false. -/
theorem c3_counterexample :
    drvW8.cursor = ⟨0, 0⟩ ∧
    (lcdSetCursor (failAt 0) 1 drvW8 σ0 5 1).1 = .ret (-1) ∧
    (lcdSetCursor (failAt 0) 1 drvW8 σ0 5 1).2.2.trace =
      [Event.bus false false false (LCD_CMD_DADDR 69)] ∧
    (lcdSetCursor (failAt 0) 1 drvW8 σ0 5 1).2.1.error = eioErr ∧
    (lcdSetCursor (failAt 0) 1 drvW8 σ0 5 1).2.1.cursor = ⟨5, 1⟩ := by
  decide

/-- Claim C3 as amended: send-command and send-data never modify the
cursor fields; on the write-only 8-bit path a failure at any call k of
the six-call write phase (k < 6) aborts before call k+1 with EIO
latched; the one exception is the trailing write-only busy hold (call 6),
whose failure is returned to the caller without latching EIO.  (Per the
counterexample, set-cursor stores the new cursor before the bus command,
so its cursor fields can hold the new position on failure.) -/
theorem c3_amended :
    (∀ (env : Env) (fuel : Nat) (drv : Driver) (σ : BusState) (b : Nat),
      (lcdCommand env fuel drv σ b).2.1.cursor = drv.cursor ∧
        (lcdWrite env fuel drv σ b).2.1.cursor = drv.cursor) ∧
    (∀ k, k < 6 →
      (lcdCommand (failAt k) 1 drvW8 σ0 51).1 = .ret (-1) ∧
      (lcdCommand (failAt k) 1 drvW8 σ0 51).2.1.error = eioErr ∧
      (lcdCommand (failAt k) 1 drvW8 σ0 51).2.2.idx = k + 1) ∧
    ((lcdCommand (failAt 6) 1 drvW8 σ0 51).1 = .ret (-1) ∧
      (lcdCommand (failAt 6) 1 drvW8 σ0 51).2.1.error = 0 ∧
      (lcdCommand (failAt 6) 1 drvW8 σ0 51).2.2.idx = 7) :=
  ⟨fun env fuel drv σ b =>
    ⟨preserved_cursor (command_driver env fuel drv σ b),
      preserved_cursor (write_driver env fuel drv σ b)⟩,
    by decide, by decide⟩

/-- Witness for C3 (amended) at concrete inputs. -/
theorem c3_amended_witness :
    (lcdCommand okEnv 1 drvW8 σ0 51).2.1.cursor = drvW8.cursor ∧
    ((lcdCommand (failAt 2) 1 drvW8 σ0 51).1 = .ret (-1) ∧
      (lcdCommand (failAt 2) 1 drvW8 σ0 51).2.1.error = eioErr ∧
      (lcdCommand (failAt 2) 1 drvW8 σ0 51).2.2.idx = 3) :=
  ⟨(c3_amended.1 okEnv 1 drvW8 σ0 51).1, c3_amended.2.1 2 (by decide)⟩

/-- Case analysis on an if-then-else providing the condition to each
branch. -/
lemma ite_prop_h {α : Sort _} (Q : α → Prop) {P : Prop} {inst : Decidable P}
    {a b : α} (ha : P → Q a) (hb : ¬P → Q b) : Q (@ite α P inst a b) := by
  rcases inst with h | h
  · rw [if_neg h]; exact hb h
  · rw [if_pos h]; exact ha h

lemma nnr_refl (σ : BusState) : NoNewReads σ σ := fun _ he => Or.inl he

lemma nnr_trans {σ1 σ2 σ3 : BusState} (h12 : NoNewReads σ1 σ2)
    (h23 : NoNewReads σ2 σ3) : NoNewReads σ1 σ3 :=
  fun e he => (h23 e he).elim (fun h => h12 e h) Or.inr

/-- A bus write (rw = 0) adds no read event. -/
lemma nnr_write (env : Env) (σ : BusState) (rs en : Bool) (d : Nat) :
    NoNewReads σ (lcdBusIo env σ false rs en d).2 := by
  intro e he
  dsimp only [lcdBusIo] at he
  rcases List.mem_append.mp he with h | h
  · exact Or.inl h
  · right
    rw [List.mem_singleton.mp h]
    rfl

/-- A delay call adds no read event. -/
lemma nnr_delay (env : Env) (σ : BusState) (t : Nat) :
    NoNewReads σ (lcdDelayCall env σ t).2 := by
  intro e he
  dsimp only [lcdDelayCall] at he
  rcases List.mem_append.mp he with h | h
  · exact Or.inl h
  · right
    rw [List.mem_singleton.mp h]
    rfl

/-- The six-call write phase adds no read event. -/
lemma nnr_writePhase (env : Env) (σ : BusState) (rs : Bool) (d : Nat)
    (t1 t2 t3 : Nat) :
    NoReadsOut2 σ (busWritePhase env σ rs d t1 t2 t3) := by
  unfold busWritePhase
  dsimp only
  have n1 := nnr_write env σ rs false d
  have n2 := nnr_trans n1 (nnr_delay env _ t1)
  have n3 := nnr_trans n2 (nnr_write env _ rs true d)
  have n4 := nnr_trans n3 (nnr_delay env _ t2)
  have n5 := nnr_trans n4 (nnr_write env _ rs false d)
  have n6 := nnr_trans n5 (nnr_delay env _ t3)
  refine ite_prop _ n1 ?_
  refine ite_prop _ n2 ?_
  refine ite_prop _ n3 ?_
  refine ite_prop _ n4 ?_
  refine ite_prop _ n5 ?_
  exact n6

/-- In write-only mode, `lcdSendByte` adds no read event. -/
lemma nnr_sendByte (env : Env) (fuel : Nat) (drv : Driver) (σ : BusState)
    (rs : Bool) (b : Nat) (hwo : drv.writeOnly = true) :
    NoReadsOut3 σ (lcdSendByte env fuel drv σ rs b) := by
  unfold lcdSendByte
  dsimp only
  have n1 := nnr_writePhase env σ rs b drv.busTiming.addressSetup
    drv.busTiming.enableHold drv.busTiming.dataHold
  refine ite_prop _ n1 ?_
  have n2 : NoReadsOut2 σ
      (if drv.fourBits then
        busWritePhase env
          (busWritePhase env σ rs b drv.busTiming.addressSetup
            drv.busTiming.enableHold drv.busTiming.dataHold).2 rs
          ((b <<< 4) % 256) drv.busTiming.addressSetup
          drv.busTiming.enableHold drv.busTiming.dataHold
      else (false,
        (busWritePhase env σ rs b drv.busTiming.addressSetup
          drv.busTiming.enableHold drv.busTiming.dataHold).2)) := by
    refine ite_prop _ ?_ n1
    exact nnr_trans n1 (nnr_writePhase env _ rs _ _ _ _)
  refine ite_prop _ n2 ?_
  refine ite_prop_h _ (fun _ => nnr_trans n2 (nnr_delay env _ _)) ?_
  intro hP
  exact absurd hwo hP

/-- In write-only mode, `lcdCommand` adds no read event. -/
lemma nnr_command (env : Env) (fuel : Nat) (drv : Driver) (σ : BusState)
    (b : Nat) (hwo : drv.writeOnly = true) :
    NoReadsOut3 σ (lcdCommand env fuel drv σ b) :=
  nnr_sendByte env fuel drv σ false b hwo

/-- In write-only mode, `lcdInit4Bit` adds no read event. -/
lemma nnr_init4Bit (env : Env) (fuel : Nat) (drv : Driver) (σ : BusState)
    (hwo : drv.writeOnly = true) :
    NoReadsOut3 σ (lcdInit4Bit env fuel drv σ) := by
  unfold lcdInit4Bit
  dsimp only
  have n1 := nnr_writePhase env σ false (LCD_CMD_FUNCTION true false false)
    drv.busTiming.addressSetup drv.busTiming.enableHold 5000
  have n2 := nnr_trans n1 (nnr_writePhase env _ false
    (LCD_CMD_FUNCTION true false false)
    drv.busTiming.addressSetup drv.busTiming.enableHold 100)
  have n3 := nnr_trans n2 (nnr_write env _ false true
    (LCD_CMD_FUNCTION true false false))
  have n4 := nnr_trans n3 (nnr_delay env _ drv.busTiming.enableHold)
  have n5 := nnr_trans n4 (nnr_write env _ false false
    (LCD_CMD_FUNCTION true false false))
  have n6 := nnr_trans n5 (nnr_delay env _ drv.busTiming.dataHold)
  have n7 := nnr_trans n6 (nnr_writePhase env _ false
    (LCD_CMD_FUNCTION false false false) drv.busTiming.addressSetup
    drv.busTiming.enableHold (drv.busTiming.dataHold + 100))
  refine ite_prop _ n1 ?_
  refine ite_prop _ n2 ?_
  refine ite_prop _ n3 ?_
  refine ite_prop _ n4 ?_
  refine ite_prop _ n5 ?_
  refine ite_prop _ n6 ?_
  refine ite_prop _ n7 ?_
  exact nnr_trans n7 (nnr_command env fuel drv _
    (LCD_CMD_FUNCTION false false false) hwo)

/-- In write-only mode, `lcdClear` adds no read event. -/
lemma nnr_clear (env : Env) (fuel : Nat) (drv : Driver) (σ : BusState)
    (hwo : drv.writeOnly = true) :
    NoReadsOut3 σ (lcdClear env fuel drv σ) := by
  unfold lcdClear
  have n1 := nnr_command env fuel drv σ LCD_CMD_CLEAR hwo
  rcases h : lcdCommand env fuel drv σ LCD_CMD_CLEAR with ⟨out, d1, σ1⟩
  rw [h] at n1
  rcases out with r | _ | _
  · dsimp only
    refine ite_prop _ n1 ?_
    refine ite_prop _ (nnr_trans n1 (nnr_delay env _ _)) ?_
    exact nnr_trans n1 (nnr_delay env _ _)
  · exact n1
  · exact n1

/-- In write-only mode, `lcdInit` adds no read event. -/
lemma nnr_init (env : Env) (fuel : Nat) (drv : Driver) (σ : BusState)
    (hwo : drv.writeOnly = true) :
    NoReadsOut3 σ (lcdInit env fuel drv σ) := by
  unfold lcdInit
  dsimp only
  refine ite_prop _ ?_ (nnr_refl σ)
  have hwo0 : ({ drv with cursor := (⟨0, 0⟩ : Cursor) }).writeOnly = true :=
    hwo
  have hp4 := init4Bit_driver env fuel { drv with cursor := ⟨0, 0⟩ } σ
  have n1 := nnr_init4Bit env fuel { drv with cursor := ⟨0, 0⟩ } σ hwo0
  rcases h : lcdInit4Bit env fuel { drv with cursor := ⟨0, 0⟩ } σ
    with ⟨out, d1, σ1⟩
  rw [h] at n1 hp4
  rcases out with r | _ | _
  · dsimp only
    refine ite_prop _ n1 ?_
    have hwo1 : d1.writeOnly = true := by
      rw [(preserved_flags hp4).2.1]; exact hwo
    have hpc := command_driver env fuel d1 σ1
      (LCD_CMD_FUNCTION false (decide (1 < d1.dimensions.height)) d1.largeFont)
    have n2 := nnr_trans n1 (nnr_command env fuel d1 σ1
      (LCD_CMD_FUNCTION false (decide (1 < d1.dimensions.height)) d1.largeFont)
      hwo1)
    rcases h2 : lcdCommand env fuel d1 σ1
        (LCD_CMD_FUNCTION false (decide (1 < d1.dimensions.height))
          d1.largeFont) with ⟨out2, d2, σ2⟩
    rw [h2] at n2 hpc
    rcases out2 with r2 | _ | _
    · dsimp only
      refine ite_prop _ n2 ?_
      have hwo2 : d2.writeOnly = true := by
        rw [(preserved_flags hpc).2.1]; exact hwo1
      have n3 := nnr_trans n2 (nnr_delay env σ2 d2.busTiming.busyHoldShort)
      refine ite_prop _ n3 ?_
      exact nnr_trans n3 (nnr_clear env fuel d2 _ hwo2)
    · exact n2
    · exact n2
  · exact n1
  · exact n1

/-- Claim C10: in write-only mode, no operation ever calls the bus
collaborator with the read flag set: every bus event that send-command,
send-data, the 4-bit init handshake or full initialization appends to the
trace is a write transaction (rw = 0), under any collaborator behavior
(including failures). -/
theorem c10_writeonly_never_reads :
    ∀ (env : Env) (fuel : Nat) (drv : Driver) (σ : BusState) (b : Nat),
      drv.writeOnly = true →
      NoNewReads σ (lcdCommand env fuel drv σ b).2.2 ∧
        NoNewReads σ (lcdWrite env fuel drv σ b).2.2 ∧
        NoNewReads σ (lcdInit4Bit env fuel drv σ).2.2 ∧
        NoNewReads σ (lcdInit env fuel drv σ).2.2 :=
  fun env fuel drv σ b hwo =>
    ⟨nnr_command env fuel drv σ b hwo,
      nnr_sendByte env fuel drv σ true b hwo,
      nnr_init4Bit env fuel drv σ hwo,
      nnr_init env fuel drv σ hwo⟩

/-- Witness for C10 at concrete inputs. -/
theorem c10_writeonly_never_reads_witness :
    NoNewReads σ0 (lcdCommand okEnv 1 drvW8 σ0 51).2.2 ∧
      NoNewReads σ0 (lcdInit okEnv 1 drv16x2 σ0).2.2 :=
  ⟨(c10_writeonly_never_reads okEnv 1 drvW8 σ0 51 (by decide)).1,
    (c10_writeonly_never_reads okEnv 1 drv16x2 σ0 51 (by decide)).2.2.2⟩

/-- Evaluation of one write phase when the six collaborator calls it
makes all return 0. -/
lemma writePhase_zeros (env : Env) (i : Nat) (tr : List Event) (rs : Bool)
    (d t1 t2 t3 : Nat) (h0 : env i = 0) (h1 : env (i + 1) = 0)
    (h2 : env (i + 1 + 1) = 0) (h3 : env (i + 1 + 1 + 1) = 0)
    (h4 : env (i + 1 + 1 + 1 + 1) = 0)
    (h5 : env (i + 1 + 1 + 1 + 1 + 1) = 0) :
    busWritePhase env ⟨i, tr⟩ rs d t1 t2 t3 =
      (false, ⟨i + 6, tr ++ writeCycleEvents rs d t1 t2 t3⟩) := by
  unfold busWritePhase writeCycleEvents
  dsimp only [lcdBusIo, lcdDelayCall]
  rw [h0, h1, h2, h3, h4, h5]
  norm_num

/-- With every call succeeding, one write phase records exactly the six
write-cycle events. -/
lemma writePhase_okEnv (i : Nat) (tr : List Event) (rs : Bool)
    (d t1 t2 t3 : Nat) :
    busWritePhase okEnv ⟨i, tr⟩ rs d t1 t2 t3 =
      (false, ⟨i + 6, tr ++ writeCycleEvents rs d t1 t2 t3⟩) :=
  writePhase_zeros okEnv i tr rs d t1 t2 t3 rfl rfl rfl rfl rfl rfl

/-- Successful `lcdCommand` on a write-only 4-bit driver: the two nibble
cycles and the short busy hold. -/
lemma command4WO_okEnv (fuel : Nat) (drv : Driver)
    (hfb : drv.fourBits = true) (hwo : drv.writeOnly = true)
    (i : Nat) (tr : List Event) (b : Nat) :
    lcdCommand okEnv fuel drv ⟨i, tr⟩ b =
      (.ret 0, drv, ⟨i + 13, tr ++ commandEventsWO drv.busTiming b⟩) := by
  unfold lcdCommand lcdSendByte
  rw [writePhase_okEnv]
  dsimp only
  rw [hfb, hwo]
  rw [if_pos rfl]
  rw [writePhase_okEnv]
  dsimp only [lcdDelayCall, okEnv]
  norm_num [commandEventsWO, List.append_assoc]

/-- Successful `lcdCommand` on a write-only 8-bit driver: one write
cycle and the short busy hold. -/
lemma command8WO_okEnv (fuel : Nat) (drv : Driver)
    (hfb : drv.fourBits = false) (hwo : drv.writeOnly = true)
    (i : Nat) (tr : List Event) (b : Nat) :
    lcdCommand okEnv fuel drv ⟨i, tr⟩ b =
      (.ret 0, drv, ⟨i + 7,
        tr ++ writeCycleEvents false b drv.busTiming.addressSetup
          drv.busTiming.enableHold drv.busTiming.dataHold ++
          [Event.delay drv.busTiming.busyHoldShort]⟩) := by
  unfold lcdCommand lcdSendByte
  rw [writePhase_okEnv]
  dsimp only
  rw [hfb, hwo]
  rw [if_pos rfl]
  dsimp only [lcdDelayCall, okEnv]
  norm_num [List.append_assoc]

/-- Successful `lcdClear` on a write-only 4-bit driver. -/
lemma clear4WO_okEnv (fuel : Nat) (drv : Driver)
    (hfb : drv.fourBits = true) (hwo : drv.writeOnly = true)
    (i : Nat) (tr : List Event) :
    lcdClear okEnv fuel drv ⟨i, tr⟩ =
      (.ret 0, { drv with cursor := ⟨0, 0⟩ }, ⟨i + 14,
        tr ++ commandEventsWO drv.busTiming LCD_CMD_CLEAR ++
          [Event.delay drv.busTiming.busyHoldShort]⟩) := by
  unfold lcdClear
  rw [command4WO_okEnv fuel drv hfb hwo i tr LCD_CMD_CLEAR]
  dsimp only [lcdDelayCall, okEnv]
  norm_num [List.append_assoc]

/-- Successful `lcdInit4Bit` on a write-only driver: the three 8-bit
pulses, the extended-settle nibble pulse and the full `FUNCTION(0,0,0)`
command. -/
lemma init4Bit_okEnv (fuel : Nat) (drv : Driver)
    (hfb : drv.fourBits = true) (hwo : drv.writeOnly = true)
    (i : Nat) (tr : List Event) :
    lcdInit4Bit okEnv fuel drv ⟨i, tr⟩ =
      (.ret 0, drv, ⟨i + 35, tr ++ init4BitEventsWO drv.busTiming⟩) := by
  unfold lcdInit4Bit
  dsimp only
  rw [writePhase_okEnv]
  norm_num
  rw [writePhase_okEnv]
  norm_num
  dsimp only [lcdBusIo, lcdDelayCall, okEnv]
  norm_num
  rw [writePhase_okEnv]
  norm_num
  rw [command4WO_okEnv fuel drv hfb hwo]
  norm_num [init4BitEventsWO, commandEventsWO, writeCycleEvents,
    List.append_assoc]
  decide

/-- Successful `lcdInit` on a write-only 4-bit driver produces the exact
63-call trace `initEventsWO`, returns 0 and zeroes the cursor. -/
lemma init_okEnv (fuel : Nat) (drv : Driver)
    (hfb : drv.fourBits = true) (hwo : drv.writeOnly = true) :
    lcdInit okEnv fuel drv σ0 =
      (.ret 0, { drv with cursor := ⟨0, 0⟩ },
        ⟨63, initEventsWO drv.busTiming
          (decide (1 < drv.dimensions.height)) drv.largeFont⟩) := by
  unfold lcdInit
  dsimp only
  rw [if_pos hfb]
  have hfb0 : ({ drv with cursor := (⟨0, 0⟩ : Cursor) }).fourBits = true := hfb
  have hwo0 : ({ drv with cursor := (⟨0, 0⟩ : Cursor) }).writeOnly = true := hwo
  rw [show σ0 = ⟨0, []⟩ from rfl]
  rw [init4Bit_okEnv fuel { drv with cursor := ⟨0, 0⟩ } hfb0 hwo0 0 []]
  dsimp only
  norm_num
  rw [command4WO_okEnv fuel { drv with cursor := ⟨0, 0⟩ } hfb0 hwo0]
  dsimp only [lcdDelayCall, okEnv]
  norm_num
  rw [clear4WO_okEnv fuel { drv with cursor := ⟨0, 0⟩ } hfb0 hwo0]
  norm_num [initEventsWO, List.append_assoc]

/-- Claim C2 as amended: for every write-only 4-bit configuration and
timing table, a successful `lcdInit` run performs exactly: the three
8-bit function-set pulses with settle delays 5000 us, 100 us and the
configured data-hold; the 4-bit function-set nibble pulse with the
extended settle delay (data-hold + 100 us); a full two-nibble
`FUNCTION(0,0,0)` command (a second 4-bit-mode request, absent from the
claim); the full function-set command with the lines bit from
height > 1 and the configured font, followed by a short busy hold; and
the display-clear; on success the result is 0 and the logical cursor is
(0,0). -/
theorem c2_amended :
    ∀ (t : BusTiming) (w h : Nat) (lf : Bool),
      lcdInit okEnv 1 (woDrv4 t w h lf) σ0 =
        (.ret 0, woDrv4 t w h lf,
          ⟨63, initEventsWO t (decide (1 < h)) lf⟩) :=
  fun t w h lf => init_okEnv 1 (woDrv4 t w h lf) rfl rfl

/-- Refutation of claim C2 as stated: on a 16x2 write-only 4-bit driver
with default timings, the actual initialization trace is not the
claimed three-pulse-then-final sequence (modelled charitably in
`c2ClaimedEventsWO`), and it contains two enable-high bus writes
carrying the 4-bit function-set byte 0x20 where the claimed sequence
has exactly one (the single nibble pulse): the source sends an extra
full `FUNCTION(0,0,0)` command, and the settle delay after the third
pulse is the data-hold, not the enable-hold. -/
theorem c2_counterexample :
    (lcdInit okEnv 1 drv16x2 σ0).2.2.trace ≠
      c2ClaimedEventsWO defaultTiming true false ∧
    (lcdInit okEnv 1 drv16x2 σ0).2.2.trace.countP
      (fun e => e == Event.bus false false true 0x20) = 2 := by
  rw [init_okEnv 1 drv16x2 rfl rfl]
  dsimp only
  constructor
  · decide
  · decide

lemma busyLoop_envBusy (t : BusTiming) (N : Nat) :
    ∀ (r i j : Nat) (tr : List Event), i + r = N → j = 8 + 5 * i →
      busyLoop (envBusy N) (readDrv8 t) (r + 1) ⟨j, tr⟩ =
        (.ret 0, readDrv8 t,
          ⟨5 * N + 14, tr ++ pollEvents t (r + 1) ++
            [Event.bus false false false 0]⟩) := by
  have hbt : (readDrv8 t).busTiming = t := rfl
  have hfb : (readDrv8 t).fourBits = false := rfl
  intro r
  induction r with
  | zero =>
    intro i j tr hi hj
    subst hj
    unfold busyLoop
    dsimp only [lcdBusIo, lcdDelayCall]
    rw [hbt]
    have e0 : envBusy N (8 + 5 * i) = 0 := by
      unfold envBusy; rw [if_neg]; omega
    have e1 : envBusy N (8 + 5 * i + 1) = 0 := by
      unfold envBusy; rw [if_neg]; omega
    have e2 : envBusy N (8 + 5 * i + 1 + 1) = 0 := by
      unfold envBusy; rw [if_neg]; omega
    have e3 : envBusy N (8 + 5 * i + 1 + 1 + 1) = 0 := by
      unfold envBusy; rw [if_neg]; omega
    have e4 : envBusy N (8 + 5 * i + 1 + 1 + 1 + 1) = 0 := by
      unfold envBusy; rw [if_neg]; omega
    have e5 : envBusy N (8 + 5 * i + 1 + 1 + 1 + 1 + 1) = 0 := by
      unfold envBusy; rw [if_neg]; omega
    rw [e0, e1, e2, e3, e4]
    rw [if_neg (by norm_num), if_neg (by norm_num), if_neg (by norm_num),
      if_neg (by norm_num), if_neg (by norm_num)]
    rw [if_neg (by rw [hfb]; exact Bool.false_ne_true)]
    rw [if_neg (by decide : ¬ ((0 : Int).toNat &&& 128 ≠ 0))]
    rw [e5]
    simp only [Prod.mk.injEq, BusState.mk.injEq, eq_self_iff_true, true_and]
    constructor
    · omega
    · simp [pollEvents, pollCycleEvents, List.append_assoc]
  | succ n ih =>
    intro i j tr hi hj
    subst hj
    unfold busyLoop
    dsimp only [lcdBusIo, lcdDelayCall]
    rw [hbt]
    have e0 : envBusy N (8 + 5 * i) = 0 := by
      unfold envBusy; rw [if_neg]; omega
    have e1 : envBusy N (8 + 5 * i + 1) = 0 := by
      unfold envBusy; rw [if_neg]; omega
    have e2 : envBusy N (8 + 5 * i + 1 + 1) = 0 := by
      unfold envBusy; rw [if_neg]; omega
    have e3 : envBusy N (8 + 5 * i + 1 + 1 + 1) = 128 := by
      unfold envBusy; rw [if_pos]; omega
    have e4 : envBusy N (8 + 5 * i + 1 + 1 + 1 + 1) = 0 := by
      unfold envBusy; rw [if_neg]; omega
    rw [e0, e1, e2, e3, e4]
    rw [if_neg (by norm_num), if_neg (by norm_num), if_neg (by norm_num),
      if_neg (by norm_num), if_neg (by norm_num)]
    rw [if_neg (by rw [hfb]; exact Bool.false_ne_true)]
    rw [if_pos (by decide : (128 : Int).toNat &&& 128 ≠ 0)]
    rw [ih (i + 1) (8 + 5 * i + 1 + 1 + 1 + 1 + 1) _ (by omega) (by omega)]
    simp only [Prod.mk.injEq, BusState.mk.injEq, eq_self_iff_true, true_and]
    simp [pollEvents, pollCycleEvents, List.append_assoc]

/-- Claim C6 as amended: on a read-capable 8-bit driver, with the fake
collaborator `envBusy N` reporting busy on the first N sampled busy-flag
reads and idle on the next, `lcdCommand` performs the write phase and
read setup, then exactly N+1 polling read-cycles, then one final dummy
bus write (rw = 0, en = 0, data = 0) to restore line state - not a read
cycle - and returns success. -/
theorem c6_amended :
    ∀ (t : BusTiming) (N : Nat) (c : Nat),
      lcdCommand (envBusy N) (N + 1) (readDrv8 t) σ0 c =
        (.ret 0, readDrv8 t,
          ⟨5 * N + 14,
            commandPrefixEventsR8 t c ++ pollEvents t (N + 1) ++
              [Event.bus false false false 0]⟩) := by
  intro t N c
  have hbt : (readDrv8 t).busTiming = t := rfl
  have hfb : (readDrv8 t).fourBits = false := rfl
  have hwo : (readDrv8 t).writeOnly = false := rfl
  unfold lcdCommand lcdSendByte
  dsimp only [σ0]
  rw [hbt]
  rw [writePhase_zeros (envBusy N) 0 [] false c t.addressSetup t.enableHold
    t.dataHold (by unfold envBusy; rw [if_neg]; omega)
    (by unfold envBusy; rw [if_neg]; omega)
    (by unfold envBusy; rw [if_neg]; omega)
    (by unfold envBusy; rw [if_neg]; omega)
    (by unfold envBusy; rw [if_neg]; omega)
    (by unfold envBusy; rw [if_neg]; omega)]
  simp only [hfb, hwo, Bool.false_eq_true, if_false]
  dsimp only [lcdBusIo, lcdDelayCall]
  have e6 : envBusy N 6 = 0 := by unfold envBusy; rw [if_neg]; omega
  have e7 : envBusy N 7 = 0 := by unfold envBusy; rw [if_neg]; omega
  rw [e6]
  rw [if_neg (by norm_num)]
  rw [e7]
  rw [if_neg (by norm_num)]
  rw [busyLoop_envBusy t N N 0 8 _ (by omega) (by omega)]
  simp only [Prod.mk.injEq, BusState.mk.injEq, eq_self_iff_true, true_and]
  simp [commandPrefixEventsR8, writeCycleEvents, List.append_assoc]

/-- Refutation of claim C6 as stated: with N = 0 (busy never set), after
the single polling read-cycle the last collaborator call of
`lcdCommand` is `lcdBusIO(driver, 0, 0, 0, 0)` - a bus write, not a
"final dummy read cycle" - and the command still returns success. -/
theorem c6_counterexample :
    (lcdCommand (envBusy 0) 1 drvR8 σ0 51).2.2.trace.getLast? =
      some (Event.bus false false false 0) ∧
    Event.isRead (Event.bus false false false 0) = false ∧
    (lcdCommand (envBusy 0) 1 drvR8 σ0 51).1 = .ret 0 := by
  decide

/-- Claim C7 as amended: in write-only mode a command completes with the
two write phases (here, the single 8-bit phase) followed by one fixed
short busy-hold delay and no read transaction; `lcdClear` adds a second
short busy hold after the clear command, and `lcdHome` adds the long
busy hold after the home command: the long hold is used specifically
after home, not after clear. -/
theorem c7_amended :
    ∀ (t : BusTiming) (c : Nat),
      lcdCommand okEnv 1 (woDrv8 t) σ0 c =
        (.ret 0, woDrv8 t,
          ⟨7, writeCycleEvents false c t.addressSetup t.enableHold
            t.dataHold ++ [Event.delay t.busyHoldShort]⟩) ∧
      lcdClear okEnv 1 (woDrv8 t) σ0 =
        (.ret 0, { woDrv8 t with cursor := ⟨0, 0⟩ },
          ⟨8, writeCycleEvents false LCD_CMD_CLEAR t.addressSetup
            t.enableHold t.dataHold ++
            [Event.delay t.busyHoldShort, Event.delay t.busyHoldShort]⟩) ∧
      lcdHome okEnv 1 (woDrv8 t) σ0 =
        (.ret 0, { woDrv8 t with cursor := ⟨0, 0⟩ },
          ⟨8, writeCycleEvents false LCD_CMD_HOME t.addressSetup
            t.enableHold t.dataHold ++
            [Event.delay t.busyHoldShort, Event.delay t.busyHoldLong]⟩) :=
  fun t c => ⟨rfl, rfl, rfl⟩

/-- Refutation of claim C7 as stated: with the default timings (short
hold 500 us, long hold 50000 us), the write-only `lcdClear` run contains
no long-busy-hold delay at all - the long hold is used after home
only. -/
theorem c7_counterexample :
    drvW8.busTiming.busyHoldLong = 50000 ∧
    Event.delay 50000 ∉ (lcdClear okEnv 1 drvW8 σ0).2.2.trace ∧
    Event.delay 50000 ∈ (lcdHome okEnv 1 drvW8 σ0).2.2.trace := by
  decide

end Lcd
